import Mathlib

/-!
Shallow embedding of `src/activation-inl.h` (the MXNet-style Activation
operator) and verification of its specification claims.

Tensors are modelled by their flattened contents (`List Rat`, standing for
`real_t` data after `FlatTo2D`); a `std::vector<TBlob>` argument becomes a
`List (List Rat)`.  A C++ member function that can hit a failing `CHECK`
(which aborts the process) is embedded as a function returning `Option`:
`none` is the aborted call, `some` the completed one.
-/

namespace Mxnet

-- Enumerations from `namespace activation` (activation-inl.h lines 24-28).
namespace activation

/-- `enum ActivationOpInputs {kData}` -/
def kData : Nat := 0

/-- `enum ActivationOpOutputs {kOut}` -/
def kOut : Nat := 0

/-- `enum ActivationOpType {kReLU, kSigmoid, kTanh, kSoftReLU, kHLU}` -/
def kReLU : Nat := 0

def kSigmoid : Nat := 1

def kTanh : Nat := 2

def kSoftReLU : Nat := 3

def kHLU : Nat := 4

end activation

/-- The `act_type` field of `ActivationParam`: the string keys registered by
`add_enum` in `DMLC_DECLARE_PARAMETER(ActivationParam)` together with the
enum value each maps to (activation-inl.h lines 33-41). -/
def actTypeEnum : List (String × Nat) :=
  [("relu", activation.kReLU),
   ("sigmoid", activation.kSigmoid),
   ("tanh", activation.kTanh),
   ("softrelu", activation.kSoftReLU),
   ("hlu", activation.kHLU)]

/-- A string is an accepted value for the `act_type` parameter iff it is one
of the keys registered by `add_enum`. -/
def acceptedActType (s : String) : Bool :=
  actTypeEnum.any (fun p => p.1 == s)

/-- `ActivationParam`: one `int act_type` field. -/
structure ActivationParam where
  act_type : Nat
deriving DecidableEq

/-- Modelled from the spec: the dmlc parameter dictionary
(`param_.__DICT__()`, from `dmlc/parameter.h`, outside the excerpt) maps
each declared field name to the printed form of its value. -/
def paramDict (p : ActivationParam) : List (String × String) :=
  [("act_type", toString p.act_type)]

/-- `TShape`: a shape is its list of dimension sizes. -/
abbrev TShape : Type := List Nat

/-- `TShape::ndim()` -/
def ndim (s : TShape) : Nat := List.length s

/-- `OpReqType` (from `mxnet/operator.h`): how an output should be written. -/
inductive OpReqType
  | kNullOp
  | kWriteTo
  | kWriteInplace
  | kAddTo
deriving DecidableEq

/-- Modelled from the spec: the framework's `Assign(out, req, exp)` dispatch
(`operator_common.h`, outside the excerpt), the "given write request" of the
spec: a null request keeps the old value, a write request stores the new
value, an add-to request accumulates. -/
def assignReq (req : OpReqType) (old v : Rat) : Rat :=
  match req with
  | .kNullOp => old
  | .kWriteTo => v
  | .kWriteInplace => v
  | .kAddTo => old + v

/-- `ExecType` (from `mxnet/operator.h`). -/
inductive ExecType
  | kSync
  | kAsync
deriving DecidableEq

/-- Observable scheduling actions of `Forward`/`Backward`: waiting on the
device stream and firing the completion callback. -/
inductive Event
  | wait
  | asyncComplete
deriving DecidableEq

/-- `OpContext`: the part `ActivationOp` looks at is whether
`ctx.get_stream<xpu>()` is null. -/
structure OpContext where
  streamNonNull : Bool
deriving DecidableEq

/-- The tail `if (s != NULL) s->Wait(); ctx.async_on_complete();` shared by
`Forward` and `Backward` (activation-inl.h lines 66-67 and 89-90), as the
event trace it emits. -/
def streamEvents (streamNonNull : Bool) : List Event :=
  (if streamNonNull then [Event.wait] else []) ++ [Event.asyncComplete]

/-- `ActivationOp<xpu, ForwardOp, BackwardOp>::Forward`
(activation-inl.h lines 51-68).  `f` is the elementwise `ForwardOp`.
Returns the new contents of the output blob together with the emitted event
trace, or `none` when a `CHECK` fails (or an out-of-bounds vector index is
taken, which the C++ leaves undefined). -/
def forward (f : Rat → Rat) (ctx : OpContext)
    (in_data : List (List Rat)) (req : List OpReqType)
    (out_data : List (List Rat)) (aux_args : List (List Rat)) :
    Option (List Rat × List Event) :=
  if in_data.length = 1 then
    if out_data.length = 1 then
      match in_data[activation.kData]?, out_data[activation.kOut]?,
            req[activation.kOut]? with
      | some data, some out, some r =>
          some (List.zipWith (fun o d => assignReq r o (f d)) out data,
                streamEvents ctx.streamNonNull)
      | _, _, _ => none
    else none
  else none

/-- `ActivationOp<xpu, ForwardOp, BackwardOp>::Backward`
(activation-inl.h lines 70-91).  `g` is the elementwise `BackwardOp`,
applied to `out_data` and multiplied by `out_grad`, assigned into `in_grad`
under `req[kData]`.  Returns the new contents of the `in_grad` blob and the
emitted event trace, or `none` when a `CHECK` fails (or an out-of-bounds
vector index is taken). -/
def backward (g : Rat → Rat) (ctx : OpContext)
    (out_grad : List (List Rat)) (in_data : List (List Rat))
    (out_data : List (List Rat)) (req : List OpReqType)
    (in_grad : List (List Rat)) (aux_args : List (List Rat)) :
    Option (List Rat × List Event) :=
  if out_grad.length = 1 then
    if in_data.length = 1 ∧ in_grad.length = 1 then
      if req.length = 1 then
        match out_grad[activation.kOut]?, out_data[activation.kOut]?,
              in_grad[activation.kData]?, req[activation.kData]? with
        | some m_out_grad, some m_out_data, some m_in_grad, some r =>
            some (List.zipWith (fun old v => assignReq r old v) m_in_grad
                    (List.zipWith (fun od og => g od * og) m_out_data m_out_grad),
                  streamEvents ctx.streamNonNull)
        | _, _, _, _ => none
      else none
    else none
  else none

/-- `ActivationOp::exec_type()` (activation-inl.h lines 93-97). -/
def execType : ExecType := ExecType.kAsync

/-- `ActivationProp` holds one `ActivationParam param_`. -/
structure ActivationProp where
  param_ : ActivationParam
deriving DecidableEq

/-- `ActivationProp::GetParams()` (activation-inl.h lines 111-113). -/
def getParams (prop : ActivationProp) : List (String × String) :=
  paramDict prop.param_

/-- `ActivationProp::InferShape` (activation-inl.h lines 115-125), embedded
with explicit state passing: it receives the three shape vectors and returns
the boolean result together with the three vectors after the call, or `none`
when `CHECK_EQ(in_shape->size(), 1)` aborts. -/
def inferShape (in_shape out_shape aux_shape : List TShape) :
    Option (Bool × List TShape × List TShape × List TShape) :=
  match in_shape with
  | [dshape] =>
      if ndim dshape = 0 then some (false, in_shape, out_shape, aux_shape)
      else some (true, in_shape, [dshape], aux_shape)
  | _ => none

/-- `ActivationProp::Copy()` (activation-inl.h lines 127-131): a fresh
`ActivationProp` whose `param_` is assigned from the original's. -/
def copy (prop : ActivationProp) : ActivationProp :=
  { param_ := prop.param_ }

/-- `ActivationProp::TypeString()` -/
def typeString : String := "Activation"

/-- `ActivationProp::DeclareBackwardDependency` (activation-inl.h lines
138-147).  `useCudnn` models the compile-time flag `MXNET_USE_CUDNN == 1`;
the argument vectors hold node ids, and an out-of-bounds index (undefined in
the C++) is `none`. -/
def declareBackwardDependency (useCudnn : Bool)
    (out_grad in_data out_data : List Int) : Option (List Int) :=
  if useCudnn then
    match out_grad[activation.kOut]?, out_data[activation.kOut]?,
          in_data[activation.kData]? with
    | some og, some od, some idt => some [og, od, idt]
    | _, _, _ => none
  else
    match out_grad[activation.kOut]?, out_data[activation.kOut]? with
    | some og, some od => some [og, od]
    | _, _ => none

/-- `ActivationProp::BackwardInplaceOption` (activation-inl.h lines
149-155): void-pointer arguments are modelled as opaque `Nat` identifiers. -/
def backwardInplaceOption (out_grad in_data out_data : List Int)
    (in_grad : List Nat) : Option (List (Int × Nat)) :=
  match out_grad[activation.kOut]?, in_grad[activation.kData]? with
  | some og, some ig => some [(og, ig)]
  | _, _ => none

/-- `ActivationProp::ForwardInplaceOption` (activation-inl.h lines
157-161). -/
def forwardInplaceOption (in_data : List Int) (out_data : List Nat) :
    Option (List (Int × Nat)) :=
  match in_data[activation.kData]?, out_data[activation.kOut]? with
  | some d, some o => some [(d, o)]
  | _, _ => none

/-! Helper lemmas. -/

/-- Any completed call of `Forward` emits exactly the trace of its tail
`if (s != NULL) s->Wait(); ctx.async_on_complete();`. -/
theorem forward_trace_eq (f : Rat → Rat) (ctx : OpContext)
    (in_data : List (List Rat)) (req : List OpReqType)
    (out_data aux_args : List (List Rat)) (p : List Rat × List Event)
    (h : forward f ctx in_data req out_data aux_args = some p) :
    p.2 = streamEvents ctx.streamNonNull := by
  unfold forward at h
  split at h
  · split at h
    · split at h
      · cases h; rfl
      · cases h
    · cases h
  · cases h

/-- Any completed call of `Backward` emits exactly the trace of its tail
`if (s != NULL) s->Wait(); ctx.async_on_complete();`. -/
theorem backward_trace_eq (g : Rat → Rat) (ctx : OpContext)
    (out_grad in_data out_data : List (List Rat)) (req : List OpReqType)
    (in_grad aux_args : List (List Rat)) (p : List Rat × List Event)
    (h : backward g ctx out_grad in_data out_data req in_grad aux_args = some p) :
    p.2 = streamEvents ctx.streamNonNull := by
  unfold backward at h
  split at h
  · split at h
    · split at h
      · split at h
        · cases h; rfl
        · cases h
      · cases h
    · cases h
  · cases h

/-- The shared tail trace fires the completion callback exactly once, as its
last event, preceded by a stream wait exactly when the stream is non-null. -/
theorem streamEvents_spec (b : Bool) :
    (streamEvents b).count Event.asyncComplete = 1 ∧
    (streamEvents b).getLast? = some Event.asyncComplete ∧
    (b = true → streamEvents b = [Event.wait, Event.asyncComplete]) ∧
    (b = false → streamEvents b = [Event.asyncComplete]) := by
  cases b <;> simp [streamEvents, List.count_cons]

/-! Claim theorems. -/

/-- C1 counterexample: the claim says `act_type` accepts exactly four
enumerated activation functions, but the registered enum has five pairwise
distinct entries — `"hlu"` is a fifth accepted value beyond
relu/sigmoid/tanh/softrelu. -/
theorem C1_counterexample :
    acceptedActType "hlu" = true ∧
    ¬ ("hlu" = "relu" ∨ "hlu" = "sigmoid" ∨ "hlu" = "tanh" ∨ "hlu" = "softrelu") ∧
    (actTypeEnum.map Prod.snd).Nodup ∧ actTypeEnum.length = 5 := by
  refine ⟨by decide, by decide, by decide, by decide⟩

/-- C1 (amended): the Activation operator offers exactly five elementwise
activation-function variants: a string is accepted by the `act_type`
parameter iff it is one of the five registered names, and the five enum
values are pairwise distinct. -/
theorem C1_actType_five_variants :
    (∀ s, acceptedActType s = true ↔
      (s = "relu" ∨ s = "sigmoid" ∨ s = "tanh" ∨ s = "softrelu" ∨ s = "hlu")) ∧
    (actTypeEnum.map Prod.snd).Nodup ∧ actTypeEnum.length = 5 := by
  refine ⟨fun s => ?_, by decide, by decide⟩
  simp only [acceptedActType, actTypeEnum, List.any_cons, List.any_nil,
    Bool.or_eq_true, beq_iff_eq, Bool.false_eq_true, or_false]
  constructor
  · rintro (h | h | h | h | h) <;> simp [h]
  · rintro (h | h | h | h | h) <;> simp [h]

/-- Witness for C1: evaluates the amended theorem at the concrete input
`"hlu"`. -/
theorem C1_witness : acceptedActType "hlu" = true :=
  (C1_actType_five_variants.1 "hlu").mpr (by simp)

/-- C2: a call of `InferShape` with exactly one input shape completes
(returns `some`), returns `false` iff that input shape has zero dimensions,
and on `true` the output-shape vector is replaced by exactly one shape equal
to the input shape. -/
theorem C2_inferShape_single_input (d : TShape)
    (out_shape aux_shape : List TShape) :
    ∃ r, inferShape [d] out_shape aux_shape = some r ∧
      (r.1 = false ↔ ndim d = 0) ∧
      (r.1 = true → r.2.2.1 = [d]) := by
  by_cases h : ndim d = 0
  · exact ⟨(false, [d], out_shape, aux_shape),
      by simp [inferShape, activation.kData, h], by simp [h], by simp⟩
  · exact ⟨(true, [d], [d], aux_shape),
      by simp [inferShape, activation.kData, h], by simp [h], fun _ => rfl⟩

/-- Witness for C2 at the concrete input shape `[2, 3]`. -/
theorem C2_witness :
    ∃ r, inferShape [([2, 3] : TShape)] [] [] = some r ∧
      (r.1 = false ↔ ndim ([2, 3] : TShape) = 0) ∧
      (r.1 = true → r.2.2.1 = [([2, 3] : TShape)]) :=
  C2_inferShape_single_input [2, 3] [] []

/-- C3: `DeclareBackwardDependency`, on argument lists of the expected
arity, returns `[out_grad[kOut], out_data[kOut], in_data[kData]]` in a cuDNN
build (`MXNET_USE_CUDNN == 1`) and `[out_grad[kOut], out_data[kOut]]`
otherwise: the forward input is retained exactly when cuDNN is enabled. -/
theorem C3_declareBackwardDependency (useCudnn : Bool) (og idt od : Int) :
    declareBackwardDependency useCudnn [og] [idt] [od] =
      some (if useCudnn then [og, od, idt] else [og, od]) := by
  cases useCudnn <;> rfl

/-- Witness for C3 at concrete node ids, in both build configurations. -/
theorem C3_witness :
    declareBackwardDependency true [10] [20] [30] = some [10, 30, 20] ∧
    declareBackwardDependency false [10] [20] [30] = some [10, 30] :=
  ⟨C3_declareBackwardDependency true 10 20 30,
   C3_declareBackwardDependency false 10 20 30⟩

/-- C4: on single input/output blobs (and matching flattened sizes),
`Forward` completes and writes `out = ForwardOp(data)` elementwise under the
given write request, and `Backward` completes and writes
`in_grad = BackwardOp(out_data) * out_grad` elementwise under the given
write request. -/
theorem C4_elementwise_forward_backward (f g : Rat → Rat) (ctx : OpContext)
    (d o x og od ig : List Rat) (r r' : OpReqType) (aux : List (List Rat))
    (hdo : d.length = o.length) (hog : og.length = ig.length)
    (hod : od.length = ig.length) :
    (∃ out_new,
       forward f ctx [d] [r] [o] aux =
         some (out_new, streamEvents ctx.streamNonNull) ∧
       out_new.length = o.length ∧
       ∀ i (hi : i < o.length),
         out_new.getD i 0 = assignReq r (o.getD i 0) (f (d.getD i 0))) ∧
    (∃ grad_new,
       backward g ctx [og] [x] [od] [r'] [ig] aux =
         some (grad_new, streamEvents ctx.streamNonNull) ∧
       grad_new.length = ig.length ∧
       ∀ i (hi : i < ig.length),
         grad_new.getD i 0 =
           assignReq r' (ig.getD i 0) (g (od.getD i 0) * og.getD i 0)) := by
  constructor
  · refine ⟨List.zipWith (fun ov dv => assignReq r ov (f dv)) o d, rfl, ?_, ?_⟩
    · simp [List.length_zipWith, hdo]
    · intro i hi
      have hi1 : i < (List.zipWith (fun ov dv => assignReq r ov (f dv)) o d).length := by
        simp [List.length_zipWith, hdo]; omega
      rw [List.getD_eq_getElem _ _ hi1, List.getElem_zipWith,
          List.getD_eq_getElem _ _ hi, List.getD_eq_getElem _ _ (by omega)]
  · refine ⟨List.zipWith (fun old v => assignReq r' old v) ig
      (List.zipWith (fun odv ogv => g odv * ogv) od og), rfl, ?_, ?_⟩
    · simp [List.length_zipWith]; omega
    · intro i hi
      have hlen2 : (List.zipWith (fun odv ogv => g odv * ogv) od og).length
          = ig.length := by simp [List.length_zipWith]; omega
      have hi1 : i < (List.zipWith (fun old v => assignReq r' old v) ig
          (List.zipWith (fun odv ogv => g odv * ogv) od og)).length := by
        simp [List.length_zipWith]; omega
      rw [List.getD_eq_getElem _ _ hi1, List.getElem_zipWith,
          List.getD_eq_getElem _ _ hi]
      rw [List.getD_eq_getElem _ _ (show i < od.length by omega),
          List.getD_eq_getElem _ _ (show i < og.length by omega)]
      congr 1
      rw [List.getElem_zipWith]

/-- Witness for C4: forward over `[1, 2]` with write-to request, backward
with add-to request, at concrete rationals. -/
theorem C4_witness :
    (∃ out_new,
       forward (fun v => v + 1) ⟨true⟩ [[1, 2]] [OpReqType.kWriteTo] [[0, 0]] [] =
         some (out_new, streamEvents true) ∧
       out_new.length = 2 ∧
       ∀ i (hi : i < ([0, 0] : List Rat).length),
         out_new.getD i 0 =
           assignReq OpReqType.kWriteTo (([0, 0] : List Rat).getD i 0)
             ((([1, 2] : List Rat).getD i 0) + 1)) ∧
    (∃ grad_new,
       backward (fun v => v * 2) ⟨true⟩ [[5, 6]] [[9, 9]] [[3, 4]]
           [OpReqType.kAddTo] [[10, 20]] [] =
         some (grad_new, streamEvents true) ∧
       grad_new.length = 2 ∧
       ∀ i (hi : i < ([10, 20] : List Rat).length),
         grad_new.getD i 0 =
           assignReq OpReqType.kAddTo (([10, 20] : List Rat).getD i 0)
             ((([3, 4] : List Rat).getD i 0) * 2 * (([5, 6] : List Rat).getD i 0))) :=
  C4_elementwise_forward_backward (fun v => v + 1) (fun v => v * 2) ⟨true⟩
    [1, 2] [0, 0] [9, 9] [5, 6] [3, 4] [10, 20]
    OpReqType.kWriteTo OpReqType.kAddTo [] rfl rfl rfl

/-- C5: `exec_type` always returns `kAsync`, and every completed invocation
of `Forward` or `Backward` fires `ctx.async_on_complete` exactly once, as
its last action, after waiting on the device stream exactly when the stream
is non-null. -/
theorem C5_async_completion (f g : Rat → Rat) (ctx : OpContext)
    (in_data req out_data aux out_grad in_data2 out_data2 req2 in_grad aux2) :
    execType = ExecType.kAsync ∧
    (∀ res trace, forward f ctx in_data req out_data aux = some (res, trace) →
       trace.count Event.asyncComplete = 1 ∧
       trace.getLast? = some Event.asyncComplete ∧
       (ctx.streamNonNull = true → trace = [Event.wait, Event.asyncComplete]) ∧
       (ctx.streamNonNull = false → trace = [Event.asyncComplete])) ∧
    (∀ res trace,
       backward g ctx out_grad in_data2 out_data2 req2 in_grad aux2 =
         some (res, trace) →
       trace.count Event.asyncComplete = 1 ∧
       trace.getLast? = some Event.asyncComplete ∧
       (ctx.streamNonNull = true → trace = [Event.wait, Event.asyncComplete]) ∧
       (ctx.streamNonNull = false → trace = [Event.asyncComplete])) := by
  refine ⟨rfl, fun res trace h => ?_, fun res trace h => ?_⟩
  · have ht := forward_trace_eq f ctx in_data req out_data aux (res, trace) h
    obtain ⟨h1, h2, h3, h4⟩ := streamEvents_spec ctx.streamNonNull
    simp only at ht
    rw [ht]
    exact ⟨h1, h2, h3, h4⟩
  · have ht := backward_trace_eq g ctx out_grad in_data2 out_data2 req2 in_grad
      aux2 (res, trace) h
    obtain ⟨h1, h2, h3, h4⟩ := streamEvents_spec ctx.streamNonNull
    simp only at ht
    rw [ht]
    exact ⟨h1, h2, h3, h4⟩

/-- Witness for C5 at a concrete completed forward and backward call with a
non-null stream. -/
theorem C5_witness :
    execType = ExecType.kAsync ∧
    (∀ res trace,
       forward (fun v => v) ⟨true⟩ [[1]] [OpReqType.kWriteTo] [[0]] [] =
         some (res, trace) →
       trace.count Event.asyncComplete = 1 ∧
       trace.getLast? = some Event.asyncComplete ∧
       ((true : Bool) = true → trace = [Event.wait, Event.asyncComplete]) ∧
       ((true : Bool) = false → trace = [Event.asyncComplete])) ∧
    (∀ res trace,
       backward (fun v => v) ⟨true⟩ [[1]] [[1]] [[1]] [OpReqType.kWriteTo]
         [[0]] [] = some (res, trace) →
       trace.count Event.asyncComplete = 1 ∧
       trace.getLast? = some Event.asyncComplete ∧
       ((true : Bool) = true → trace = [Event.wait, Event.asyncComplete]) ∧
       ((true : Bool) = false → trace = [Event.asyncComplete])) :=
  C5_async_completion (fun v => v) (fun v => v) ⟨true⟩ [[1]]
    [OpReqType.kWriteTo] [[0]] [] [[1]] [[1]] [[1]] [OpReqType.kWriteTo] [[0]] []

/-- C6: on argument lists of the expected arity, `ForwardInplaceOption`
returns exactly the one pair aliasing `in_data[kData]` with
`out_data[kOut]`, and `BackwardInplaceOption` returns exactly the one pair
aliasing `out_grad[kOut]` with `in_grad[kData]`. -/
theorem C6_inplace_options (d og idt od : Int) (o ig : Nat) :
    forwardInplaceOption [d] [o] = some [(d, o)] ∧
    backwardInplaceOption [og] [idt] [od] [ig] = some [(og, ig)] :=
  ⟨rfl, rfl⟩

/-- Witness for C6 at concrete ids. -/
theorem C6_witness :
    forwardInplaceOption [7] [3] = some [(7, 3)] ∧
    backwardInplaceOption [4] [5] [6] [9] = some [(4, 9)] :=
  C6_inplace_options 7 4 5 6 3 9

/-- C7 counterexample: the claim says the assertion branches of `Forward`
and `Backward` are unreachable for every input, but calling `Forward` with
an empty `in_data` vector (and `Backward` with empty vectors) reaches the
failing `CHECK`, i.e. the call aborts. -/
theorem C7_counterexample :
    forward (fun v => v) ⟨false⟩ [] [OpReqType.kWriteTo] [[0]] [] = none ∧
    backward (fun v => v) ⟨false⟩ [] [] [] [] [] [] = none :=
  ⟨rfl, rfl⟩

/-- C7 (amended): the assertion branches of `Forward` and `Backward` are
unreachable for every input of the expected arity (one blob per tensor
vector and one write request): such calls always complete. -/
theorem C7_no_failure_at_expected_arity (f g : Rat → Rat) (ctx : OpContext)
    (d o x og od ig : List Rat) (r r' : OpReqType) (aux : List (List Rat)) :
    (forward f ctx [d] [r] [o] aux).isSome = true ∧
    (backward g ctx [og] [x] [od] [r'] [ig] aux).isSome = true :=
  ⟨rfl, rfl⟩

/-- Witness for C7 at concrete blobs. -/
theorem C7_witness :
    (forward (fun v => v) ⟨false⟩ [[1, 2]] [OpReqType.kAddTo] [[0, 0]]
       []).isSome = true ∧
    (backward (fun v => v) ⟨false⟩ [[1]] [[2]] [[3]] [OpReqType.kNullOp] [[4]]
       []).isSome = true :=
  C7_no_failure_at_expected_arity (fun v => v) (fun v => v) ⟨false⟩
    [1, 2] [0, 0] [2] [1] [3] [4] OpReqType.kAddTo OpReqType.kNullOp []

/-- C8 counterexample: two `Backward` invocations agreeing on `out_grad`,
`out_data`, `req` and the initial `in_grad` but with `in_data` vectors of
different sizes behave differently: the first completes and writes
`in_grad`, the second hits the failing `CHECK` on `in_data.size()`. -/
theorem C8_counterexample :
    backward (fun v => v) ⟨false⟩ [[1]] [[5]] [[1]] [OpReqType.kWriteTo]
      [[0]] [] ≠
    backward (fun v => v) ⟨false⟩ [[1]] [] [[1]] [OpReqType.kWriteTo]
      [[0]] [] := by
  decide

/-- C8 (amended): `Backward` reads the forward input only through the size
check `in_data.size() == 1`: two invocations agreeing on `out_grad`,
`out_data`, `req` and the initial `in_grad` whose `in_data` vectors have
equal length (however different their contents) produce identical results. -/
theorem C8_backward_independent_of_in_data (g : Rat → Rat) (ctx : OpContext)
    (out_grad out_data : List (List Rat)) (req : List OpReqType)
    (in_grad aux : List (List Rat)) (in_data1 in_data2 : List (List Rat))
    (h : in_data1.length = in_data2.length) :
    backward g ctx out_grad in_data1 out_data req in_grad aux =
    backward g ctx out_grad in_data2 out_data req in_grad aux := by
  unfold backward
  rw [h]

/-- Witness for C8: same-arity `in_data` vectors with different contents
give the same backward result. -/
theorem C8_witness :
    backward (fun v => v) ⟨false⟩ [[2]] [[5]] [[3]] [OpReqType.kWriteTo]
      [[0]] [] =
    backward (fun v => v) ⟨false⟩ [[2]] [[7, 8]] [[3]] [OpReqType.kWriteTo]
      [[0]] [] :=
  C8_backward_independent_of_in_data (fun v => v) ⟨false⟩ [[2]] [[3]]
    [OpReqType.kWriteTo] [[0]] [] [[5]] [[7, 8]] rfl

/-- C9: `InferShape` never modifies the input-shape vector, and whenever it
returns `false` (zero-dimensional input shape) it also leaves the
output-shape (and aux-shape) vector unchanged. -/
theorem C9_inferShape_readonly_on_failure
    (in_shape out_shape aux_shape : List TShape)
    (r : Bool × List TShape × List TShape × List TShape)
    (h : inferShape in_shape out_shape aux_shape = some r) :
    r.2.1 = in_shape ∧
    (r.1 = false → r.2.2.1 = out_shape ∧ r.2.2.2 = aux_shape) := by
  unfold inferShape at h
  split at h
  · split at h
    · cases h; exact ⟨rfl, fun _ => ⟨rfl, rfl⟩⟩
    · cases h; exact ⟨rfl, by simp⟩
  · cases h

/-- Witness for C9 at a zero-dimensional input shape: the call returns
`false` and both vectors are untouched. -/
theorem C9_witness :
    ((false, [([] : TShape)], [([1] : TShape)], ([] : List TShape)) :
        Bool × List TShape × List TShape × List TShape).2.1 =
      [([] : TShape)] ∧
    (((false, [([] : TShape)], [([1] : TShape)], ([] : List TShape)) :
        Bool × List TShape × List TShape × List TShape).1 = false →
      ((false, [([] : TShape)], [([1] : TShape)], ([] : List TShape)) :
        Bool × List TShape × List TShape × List TShape).2.2.1 =
        [([1] : TShape)] ∧
      ((false, [([] : TShape)], [([1] : TShape)], ([] : List TShape)) :
        Bool × List TShape × List TShape × List TShape).2.2.2 =
        ([] : List TShape)) :=
  C9_inferShape_readonly_on_failure [[]] [[1]] []
    (false, [[]], [[1]], []) rfl

/-- C10: `Copy` is parameter-preserving: the copy's stored parameter equals
the original's, hence `GetParams` of the copy equals `GetParams` of the
original. -/
theorem C10_copy_preserves_params (prop : ActivationProp) :
    (copy prop).param_ = prop.param_ ∧
    getParams (copy prop) = getParams prop :=
  ⟨rfl, rfl⟩

/-- Witness for C10 at a concrete parameter value. -/
theorem C10_witness :
    (copy ⟨⟨activation.kHLU⟩⟩).param_ = (⟨activation.kHLU⟩ : ActivationParam) ∧
    getParams (copy ⟨⟨activation.kHLU⟩⟩) = getParams ⟨⟨activation.kHLU⟩⟩ :=
  C10_copy_preserves_params ⟨⟨activation.kHLU⟩⟩

end Mxnet
